import Mathlib

/-!
Verification of the ICP transport adapter
(`src/crates/transport-icp/src/lib.rs`).

The adapter's decision logic is pure: resolve the response-size cap
(explicit override or per-method size estimate), resolve the cycle budget
(explicit override or fixed default), serialize, issue one external call,
and map the three failure domains into one error type.  We embed that
logic directly; the external collaborators (the JSON-RPC serializer, the
metered call mechanism, and the JSON parser) are passed in as function
parameters, exactly as the Rust code receives them as library calls.
-/

/-- Modelled from the spec: the opaque call-target descriptor (`RpcService`)
is declared in the crate's `evm_rpc` module, which is not among the shown
sources; the spec describes it only as an opaque service descriptor, so we
model it as a wrapped identifier. -/
structure RpcService where
  id : Nat
deriving DecidableEq, Repr

/-- Modelled from the spec: the structured application-level RPC error
(`RpcError`) is declared in the missing `evm_rpc` module.  The dispatcher
only ever uses its debug rendering (`format!("{:?}", rpc_error)`), so the
model carries exactly that rendering. -/
structure RpcError where
  debugRepr : String
deriving DecidableEq, Repr

/-- Modelled from the spec: the application-level outcome of the external
call (`RequestResult` in the missing `evm_rpc` module): either a success
payload string or a structured error. -/
inductive RequestResult where
  | Ok (payload : String)
  | Err (e : RpcError)
deriving DecidableEq, Repr

/-- The mechanism-level rejection of the call infrastructure:
a numeric reject code (the Rust code casts it with `as i64`) and a
message.  External to the crate (`ic_cdk`'s `CallResult` error). -/
structure MechanismError where
  code : Int
  message : String
deriving DecidableEq, Repr

/-- A serialized JSON-RPC request (external `alloy_json_rpc` type).  The
adapter inspects only the method name of its metadata; the payload is
carried opaquely. -/
structure SerializedRequest where
  method : String
  params : String
deriving DecidableEq, Repr

/-- A request packet: one request or an ordered batch
(external `alloy_json_rpc::RequestPacket`). -/
inductive RequestPacket where
  | Single (req : SerializedRequest)
  | Batch (reqs : List SerializedRequest)
deriving DecidableEq, Repr

/-- A response packet mirrors the request-packet shape (external
`alloy_json_rpc::ResponsePacket`); the adapter never inspects its
contents, it is only the result of the parse step. -/
inductive ResponsePacket where
  | Single (resp : String)
  | Batch (resps : List String)
deriving DecidableEq, Repr

/-- The transport-error variants this adapter produces
(from `alloy_transport::TransportError`): a local serialization error, a
deserialization error carrying the raw offending string, and an error
response with code, message and optional structured data. -/
inductive TransportError where
  | SerError (err : String)
  | DeserError (err : String) (text : String)
  | ErrorResp (code : Int) (message : String) (data : Option String)
deriving DecidableEq, Repr

/-- `const DEFAULT_CALL_CYCLES: u128 = 60_000_000_000;` -/
def DEFAULT_CALL_CYCLES : Nat := 60000000000

/-- `const MAX_RESPONSE_SIZE_SMALL: u64 = 1_000;` -/
def MAX_RESPONSE_SIZE_SMALL : Nat := 1000

/-- `const MAX_RESPONSE_SIZE_MEDIUM: u64 = 2_000;` -/
def MAX_RESPONSE_SIZE_MEDIUM : Nat := 2000

/-- `const MAX_RESPONSE_SIZE_UNKNOWN: u64 = 5_000;` -/
def MAX_RESPONSE_SIZE_UNKNOWN : Nat := 5000

/-- The transport state: the call target plus the two optional overrides
(`struct IcpTransport`).  The machine integers (`u128` cycles, `u64`
response size) are modelled as `Nat`: no arithmetic is ever performed on
them by this crate except the batch tier sum, whose summands are the
constants 1000/2000/5000, so overflow is unreachable for any batch that
fits in memory. -/
structure IcpTransport where
  rpc_service : RpcService
  call_cycles : Option Nat
  max_response_size : Option Nat
deriving DecidableEq, Repr

/-- The per-request tier table: the closure `max_response_size` inside
`IcpTransport::estimate_max_response_size`, matching on the request's
method name, arms in source order. -/
def max_response_size_of (serialized_request : SerializedRequest) : Nat :=
  match serialized_request.method with
  | "eth_blockNumber" => MAX_RESPONSE_SIZE_SMALL
  | "eth_getBalance" => MAX_RESPONSE_SIZE_SMALL
  | "eth_chainId" => MAX_RESPONSE_SIZE_SMALL
  | "eth_feeHistory" => MAX_RESPONSE_SIZE_MEDIUM
  | "eth_estimateGas" => MAX_RESPONSE_SIZE_SMALL
  | "eth_gasPrice" => MAX_RESPONSE_SIZE_SMALL
  | "eth_getBlockTransactionCountByHash" => MAX_RESPONSE_SIZE_SMALL
  | "eth_getBlockTransactionCountByNumber" => MAX_RESPONSE_SIZE_SMALL
  | "eth_getCode" => MAX_RESPONSE_SIZE_SMALL
  | "eth_getProof" => MAX_RESPONSE_SIZE_SMALL
  | "eth_getStorageAt" => MAX_RESPONSE_SIZE_SMALL
  | "eth_getTransactionByBlockHashAndIndex" => MAX_RESPONSE_SIZE_MEDIUM
  | "eth_getTransactionByHash" => MAX_RESPONSE_SIZE_MEDIUM
  | "eth_getTransactionCount" => MAX_RESPONSE_SIZE_SMALL
  | "eth_getUncleCountByBlockHash" => MAX_RESPONSE_SIZE_SMALL
  | "eth_getUncleCountByBlockNumber" => MAX_RESPONSE_SIZE_SMALL
  | "eth_maxPriorityFeePerGas" => MAX_RESPONSE_SIZE_SMALL
  | "eth_protocolVersion" => MAX_RESPONSE_SIZE_SMALL
  | _ => MAX_RESPONSE_SIZE_UNKNOWN

/-- `IcpTransport::estimate_max_response_size`: tier of the single
request, or the sum of the tiers of a batch's members. -/
def IcpTransport.estimate_max_response_size (_t : IcpTransport)
    (request_packet : RequestPacket) : Nat :=
  match request_packet with
  | RequestPacket.Single req => max_response_size_of req
  | RequestPacket.Batch reqs => (reqs.map max_response_size_of).sum

/-- Observation of whether and with which arguments the external call was
issued by one dispatch: either no call happened, or exactly one call with
the given target, payload string, declared response-size cap and cycle
budget. -/
inductive CallTrace where
  | noCall
  | called (service : RpcService) (payload : String)
      (maxResponseBytes : Nat) (cycles : Nat)
deriving DecidableEq, Repr

/-- The declared response-size cap of a trace, if a call was issued. -/
def CallTrace.maxBytes : CallTrace → Option Nat
  | CallTrace.noCall => none
  | CallTrace.called _ _ m _ => some m

/-- The cycle budget of a trace, if a call was issued. -/
def CallTrace.cyclesUsed : CallTrace → Option Nat
  | CallTrace.noCall => none
  | CallTrace.called _ _ _ cy => some cy

/-- `IcpTransport::request`, the call dispatcher.  The three external
collaborators are parameters: `ser` is `RequestPacket::serialize` composed
with `to_string` (the wire string form, or a serialization error detail),
`call` is the metered call mechanism `evm_rpc.request(service, payload,
max_response_size, cycles)`, and `parse` is `serde_json::from_str` into a
`ResponsePacket`.  The result pairs the call trace with the dispatch
outcome.  As in the source, the effective cap and budget are resolved with
`unwrap_or` before serialization, and a serialization failure aborts
before any call. -/
def IcpTransport.request (t : IcpTransport)
    (ser : RequestPacket → Except String String)
    (call : RpcService → String → Nat → Nat → Except MechanismError RequestResult)
    (parse : String → Except String ResponsePacket)
    (request_packet : RequestPacket) :
    CallTrace × Except TransportError ResponsePacket :=
  let rpc_service := t.rpc_service
  let max_response_size :=
    t.max_response_size.getD (t.estimate_max_response_size request_packet)
  let call_cycles := t.call_cycles.getD DEFAULT_CALL_CYCLES
  match ser request_packet with
  | Except.error e => (CallTrace.noCall, Except.error (TransportError.SerError e))
  | Except.ok serialized_request =>
      let call_result := call rpc_service serialized_request max_response_size call_cycles
      (CallTrace.called rpc_service serialized_request max_response_size call_cycles,
        match call_result with
        | Except.ok (RequestResult.Ok ok_result) =>
            match parse ok_result with
            | Except.ok resp => Except.ok resp
            | Except.error err => Except.error (TransportError.DeserError err ok_result)
        | Except.ok (RequestResult.Err rpc_error) =>
            Except.error (TransportError.ErrorResp 6 rpc_error.debugRepr none)
        | Except.error err =>
            Except.error (TransportError.ErrorResp err.code err.message none))

/-- The readiness poll result type (`std::task::Poll`). -/
inductive Poll (α : Type) where
  | Ready (a : α)
  | Pending
deriving DecidableEq, Repr

/-- `<IcpTransport as Service<RequestPacket>>::poll_ready`: the owned
adapter is always ready. -/
def IcpTransport.poll_ready (_t : IcpTransport) : Poll (Except TransportError Unit) :=
  Poll.Ready (Except.ok ())

/-- `<&IcpTransport as Service<RequestPacket>>::poll_ready`: the
shared-reference entry point, likewise always ready. -/
def IcpTransport.poll_ready_ref (_t : IcpTransport) : Poll (Except TransportError Unit) :=
  Poll.Ready (Except.ok ())

/-- The spec's table of known-small methods (tier 1000), in the order the
claim lists them; compared against the source-derived table. -/
def spec_small_methods : List String :=
  ["eth_blockNumber", "eth_getBalance", "eth_chainId", "eth_estimateGas",
   "eth_gasPrice", "eth_getBlockTransactionCountByHash",
   "eth_getBlockTransactionCountByNumber", "eth_getCode", "eth_getProof",
   "eth_getStorageAt", "eth_getTransactionCount",
   "eth_getUncleCountByBlockHash", "eth_getUncleCountByBlockNumber",
   "eth_maxPriorityFeePerGas", "eth_protocolVersion"]

/-- The spec's table of known-medium methods (tier 2000). -/
def spec_medium_methods : List String :=
  ["eth_feeHistory", "eth_getTransactionByBlockHashAndIndex",
   "eth_getTransactionByHash"]

/-- A fixture transport with no overrides, used by the concrete witnesses. -/
def fixtureNoOverrides : IcpTransport :=
  { rpc_service := { id := 0 }, call_cycles := none, max_response_size := none }

/-- A fixture serializer that always succeeds with a fixed wire string. -/
def fixtureSer : RequestPacket → Except String String :=
  fun _ => Except.ok "wire"

/-- A fixture parser that rejects every payload. -/
def fixtureParseFail : String → Except String ResponsePacket :=
  fun _ => Except.error "expected value"

/-- C2: for every single-request packet, the estimated response size is
1000 for each of the fifteen listed small methods, 2000 for the three
listed medium methods, and 5000 for every other method name. -/
theorem estimate_single_matches_tier_table (t : IcpTransport)
    (req : SerializedRequest) :
    (req.method ∈ spec_small_methods →
      t.estimate_max_response_size (RequestPacket.Single req) = 1000) ∧
    (req.method ∈ spec_medium_methods →
      t.estimate_max_response_size (RequestPacket.Single req) = 2000) ∧
    (req.method ∉ spec_small_methods → req.method ∉ spec_medium_methods →
      t.estimate_max_response_size (RequestPacket.Single req) = 5000) := by
  refine ⟨?_, ?_, ?_⟩
  · intro h
    simp only [spec_small_methods, List.mem_cons, List.not_mem_nil, or_false] at h
    rcases h with h | h | h | h | h | h | h | h | h | h | h | h | h | h | h <;>
      simp [IcpTransport.estimate_max_response_size, max_response_size_of, h,
        MAX_RESPONSE_SIZE_SMALL]
  · intro h
    simp only [spec_medium_methods, List.mem_cons, List.not_mem_nil, or_false] at h
    rcases h with h | h | h <;>
      simp [IcpTransport.estimate_max_response_size, max_response_size_of, h,
        MAX_RESPONSE_SIZE_MEDIUM]
  · intro hs hm
    simp only [spec_small_methods, List.mem_cons, List.not_mem_nil, or_false,
      not_or] at hs
    simp only [spec_medium_methods, List.mem_cons, List.not_mem_nil, or_false,
      not_or] at hm
    simp only [IcpTransport.estimate_max_response_size, max_response_size_of]
    split <;> simp_all [MAX_RESPONSE_SIZE_UNKNOWN]

/-- Witness for C2: the table evaluated at one method of each tier. -/
theorem estimate_single_matches_tier_table_witness :
    fixtureNoOverrides.estimate_max_response_size
      (RequestPacket.Single { method := "eth_blockNumber", params := "" }) = 1000 ∧
    fixtureNoOverrides.estimate_max_response_size
      (RequestPacket.Single { method := "eth_feeHistory", params := "" }) = 2000 ∧
    fixtureNoOverrides.estimate_max_response_size
      (RequestPacket.Single { method := "eth_custom", params := "" }) = 5000 :=
  ⟨(estimate_single_matches_tier_table fixtureNoOverrides _).1 (by decide),
   (estimate_single_matches_tier_table fixtureNoOverrides _).2.1 (by decide),
   (estimate_single_matches_tier_table fixtureNoOverrides _).2.2
     (by decide) (by decide)⟩

/-- C3: for every non-empty batch, the estimate is the arithmetic sum of
the members' tier values, and it is invariant under any permutation of
the batch. -/
theorem estimate_batch_sum_and_perm_invariant (t : IcpTransport)
    (reqs reqs' : List SerializedRequest)
    (_hne : reqs ≠ []) (hperm : reqs.Perm reqs') :
    t.estimate_max_response_size (RequestPacket.Batch reqs) =
      (reqs.map max_response_size_of).sum ∧
    t.estimate_max_response_size (RequestPacket.Batch reqs) =
      t.estimate_max_response_size (RequestPacket.Batch reqs') := by
  refine ⟨rfl, ?_⟩
  simp only [IcpTransport.estimate_max_response_size]
  exact List.Perm.sum_eq (hperm.map max_response_size_of)

/-- Witness for C3: a batch of two small methods estimates to 2000, and
one small plus one unknown method to 6000, in either order. -/
theorem estimate_batch_sum_and_perm_invariant_witness :
    fixtureNoOverrides.estimate_max_response_size
      (RequestPacket.Batch [{ method := "eth_chainId", params := "" },
        { method := "eth_getBalance", params := "" }]) = 2000 ∧
    fixtureNoOverrides.estimate_max_response_size
      (RequestPacket.Batch [{ method := "eth_chainId", params := "" },
        { method := "eth_custom", params := "" }]) =
      fixtureNoOverrides.estimate_max_response_size
      (RequestPacket.Batch [{ method := "eth_custom", params := "" },
        { method := "eth_chainId", params := "" }]) ∧
    fixtureNoOverrides.estimate_max_response_size
      (RequestPacket.Batch [{ method := "eth_chainId", params := "" },
        { method := "eth_custom", params := "" }]) = 6000 := by
  refine ⟨?_, ?_, by decide⟩
  · have h := estimate_batch_sum_and_perm_invariant fixtureNoOverrides
      [{ method := "eth_chainId", params := "" },
       { method := "eth_getBalance", params := "" }]
      [{ method := "eth_chainId", params := "" },
       { method := "eth_getBalance", params := "" }]
      (by decide) (List.Perm.refl _)
    exact h.1.trans (by decide)
  · exact (estimate_batch_sum_and_perm_invariant fixtureNoOverrides
      [{ method := "eth_chainId", params := "" },
       { method := "eth_custom", params := "" }]
      [{ method := "eth_custom", params := "" },
       { method := "eth_chainId", params := "" }]
      (by decide) (List.Perm.swap _ _ _)).2

/-- C10: a singleton batch and the same single request are estimated
identically. -/
theorem estimate_singleton_batch_eq_single (t : IcpTransport)
    (req : SerializedRequest) :
    t.estimate_max_response_size (RequestPacket.Batch [req]) =
      t.estimate_max_response_size (RequestPacket.Single req) := by
  simp [IcpTransport.estimate_max_response_size]

/-- C1: when the response-size-cap override is set to `c`, every dispatch
that issues the external call passes exactly `c` as `max_response_bytes`,
for every packet (single or batch); the estimator's result is the
declared cap only when the override is unset. -/
theorem request_uses_explicit_cap (t : IcpTransport)
    (ser : RequestPacket → Except String String)
    (call : RpcService → String → Nat → Nat → Except MechanismError RequestResult)
    (parse : String → Except String ResponsePacket)
    (pkt : RequestPacket) (payload : String)
    (hs : ser pkt = Except.ok payload) :
    (∀ c, t.max_response_size = some c →
      (t.request ser call parse pkt).1 =
        CallTrace.called t.rpc_service payload c
          (t.call_cycles.getD DEFAULT_CALL_CYCLES)) ∧
    (t.max_response_size = none →
      (t.request ser call parse pkt).1 =
        CallTrace.called t.rpc_service payload (t.estimate_max_response_size pkt)
          (t.call_cycles.getD DEFAULT_CALL_CYCLES)) := by
  constructor
  · intro c hc
    simp [IcpTransport.request, hs, hc]
  · intro hc
    simp [IcpTransport.request, hs, hc]

/-- Witness for C1: a cap of 777 on a batch whose estimate would be 6000
is passed through verbatim, while the same batch with no cap declares the
estimate 6000. -/
theorem request_uses_explicit_cap_witness :
    ({ rpc_service := { id := 0 }, call_cycles := none,
       max_response_size := some 777 : IcpTransport }.request fixtureSer
        (fun _ _ _ _ => Except.ok (RequestResult.Ok "resp")) fixtureParseFail
        (RequestPacket.Batch [{ method := "eth_chainId", params := "" },
          { method := "eth_custom", params := "" }])).1 =
      CallTrace.called { id := 0 } "wire" 777 DEFAULT_CALL_CYCLES ∧
    (fixtureNoOverrides.request fixtureSer
        (fun _ _ _ _ => Except.ok (RequestResult.Ok "resp")) fixtureParseFail
        (RequestPacket.Batch [{ method := "eth_chainId", params := "" },
          { method := "eth_custom", params := "" }])).1 =
      CallTrace.called { id := 0 } "wire" 6000 DEFAULT_CALL_CYCLES :=
  ⟨(request_uses_explicit_cap _ _ _ _ _ _ rfl).1 777 rfl,
   ((request_uses_explicit_cap _ _ _ _ _ _ rfl).2 rfl).trans (by decide)⟩

/-- C4: the cycle budget passed to the call is the configured override
verbatim when set, and the fixed default 60,000,000,000 when unset. -/
theorem request_cycles_override_or_default (t : IcpTransport)
    (ser : RequestPacket → Except String String)
    (call : RpcService → String → Nat → Nat → Except MechanismError RequestResult)
    (parse : String → Except String ResponsePacket)
    (pkt : RequestPacket) (payload : String)
    (hs : ser pkt = Except.ok payload) :
    (∀ b, t.call_cycles = some b →
      ((t.request ser call parse pkt).1).cyclesUsed = some b) ∧
    (t.call_cycles = none →
      ((t.request ser call parse pkt).1).cyclesUsed = some DEFAULT_CALL_CYCLES) := by
  constructor
  · intro b hb
    simp [IcpTransport.request, hs, hb, CallTrace.cyclesUsed]
  · intro hb
    simp [IcpTransport.request, hs, hb, CallTrace.cyclesUsed]

/-- Witness for C4: an override of 123 is used verbatim, and with no
override the default 60,000,000,000 is used. -/
theorem request_cycles_override_or_default_witness :
    (({ rpc_service := { id := 0 }, call_cycles := some 123,
        max_response_size := none : IcpTransport }.request fixtureSer
        (fun _ _ _ _ => Except.ok (RequestResult.Ok "resp")) fixtureParseFail
        (RequestPacket.Single { method := "eth_chainId", params := "" })).1).cyclesUsed
      = some 123 ∧
    ((fixtureNoOverrides.request fixtureSer
        (fun _ _ _ _ => Except.ok (RequestResult.Ok "resp")) fixtureParseFail
        (RequestPacket.Single { method := "eth_chainId", params := "" })).1).cyclesUsed
      = some DEFAULT_CALL_CYCLES :=
  ⟨(request_cycles_override_or_default _ _ _ _ _ _ rfl).1 123 rfl,
   (request_cycles_override_or_default _ _ _ _ _ _ rfl).2 rfl⟩

/-- C5: a mechanism-level rejection `(code, message)` is surfaced as an
error response whose code and message are taken verbatim, with no
structured data payload. -/
theorem request_mechanism_rejection_verbatim (t : IcpTransport)
    (ser : RequestPacket → Except String String)
    (call : RpcService → String → Nat → Nat → Except MechanismError RequestResult)
    (parse : String → Except String ResponsePacket)
    (pkt : RequestPacket) (payload : String) (ec : MechanismError)
    (hs : ser pkt = Except.ok payload)
    (hcall : call t.rpc_service payload
        (t.max_response_size.getD (t.estimate_max_response_size pkt))
        (t.call_cycles.getD DEFAULT_CALL_CYCLES) = Except.error ec) :
    (t.request ser call parse pkt).2 =
      Except.error (TransportError.ErrorResp ec.code ec.message none) := by
  simp [IcpTransport.request, hs, hcall]

/-- Witness for C5: a rejection `(120, "out of cycles")` yields code 120
and message `"out of cycles"` exactly. -/
theorem request_mechanism_rejection_verbatim_witness :
    (fixtureNoOverrides.request fixtureSer
        (fun _ _ _ _ => Except.error { code := 120, message := "out of cycles" })
        fixtureParseFail
        (RequestPacket.Single { method := "eth_chainId", params := "" })).2 =
      Except.error (TransportError.ErrorResp 120 "out of cycles" none) :=
  request_mechanism_rejection_verbatim _ _ _ _ _ _
    { code := 120, message := "out of cycles" } rfl rfl

/-- C6: an application-level structured RPC error is surfaced with the
fixed sentinel code 6, a message equal to the debug rendering of the
error object, and no structured data payload. -/
theorem request_rpc_error_sentinel_six (t : IcpTransport)
    (ser : RequestPacket → Except String String)
    (call : RpcService → String → Nat → Nat → Except MechanismError RequestResult)
    (parse : String → Except String ResponsePacket)
    (pkt : RequestPacket) (payload : String) (e : RpcError)
    (hs : ser pkt = Except.ok payload)
    (hcall : call t.rpc_service payload
        (t.max_response_size.getD (t.estimate_max_response_size pkt))
        (t.call_cycles.getD DEFAULT_CALL_CYCLES) =
        Except.ok (RequestResult.Err e)) :
    (t.request ser call parse pkt).2 =
      Except.error (TransportError.ErrorResp 6 e.debugRepr none) := by
  simp [IcpTransport.request, hs, hcall]

/-- Witness for C6: an endpoint error renders with code 6 and its debug
text. -/
theorem request_rpc_error_sentinel_six_witness :
    (fixtureNoOverrides.request fixtureSer
        (fun _ _ _ _ => Except.ok (RequestResult.Err { debugRepr := "JsonRpcError" }))
        fixtureParseFail
        (RequestPacket.Single { method := "eth_chainId", params := "" })).2 =
      Except.error (TransportError.ErrorResp 6 "JsonRpcError" none) :=
  request_rpc_error_sentinel_six _ _ _ _ _ _ { debugRepr := "JsonRpcError" } rfl rfl

/-- C7: on a mechanism success with application payload `s`, the dispatch
returns the decoded response packet when `s` parses, and a decoding error
carrying `s` verbatim when it does not. -/
theorem request_success_payload_decoded (t : IcpTransport)
    (ser : RequestPacket → Except String String)
    (call : RpcService → String → Nat → Nat → Except MechanismError RequestResult)
    (parse : String → Except String ResponsePacket)
    (pkt : RequestPacket) (payload s : String)
    (hs : ser pkt = Except.ok payload)
    (hcall : call t.rpc_service payload
        (t.max_response_size.getD (t.estimate_max_response_size pkt))
        (t.call_cycles.getD DEFAULT_CALL_CYCLES) =
        Except.ok (RequestResult.Ok s)) :
    (∀ r, parse s = Except.ok r → (t.request ser call parse pkt).2 = Except.ok r) ∧
    (∀ e, parse s = Except.error e →
      (t.request ser call parse pkt).2 =
        Except.error (TransportError.DeserError e s)) := by
  constructor
  · intro r hr
    simp [IcpTransport.request, hs, hcall, hr]
  · intro e he
    simp [IcpTransport.request, hs, hcall, he]

/-- Witness for C7: a parsing payload decodes with no error, and the
payload `"not valid json"` yields a decoding error embedding that exact
string. -/
theorem request_success_payload_decoded_witness :
    (fixtureNoOverrides.request fixtureSer
        (fun _ _ _ _ => Except.ok (RequestResult.Ok "{}"))
        (fun _ => Except.ok (ResponsePacket.Single "{}"))
        (RequestPacket.Single { method := "eth_chainId", params := "" })).2 =
      Except.ok (ResponsePacket.Single "{}") ∧
    (fixtureNoOverrides.request fixtureSer
        (fun _ _ _ _ => Except.ok (RequestResult.Ok "not valid json"))
        fixtureParseFail
        (RequestPacket.Single { method := "eth_chainId", params := "" })).2 =
      Except.error (TransportError.DeserError "expected value" "not valid json") :=
  ⟨(request_success_payload_decoded _ _ _ _ _ _ "{}" rfl rfl).1
      (ResponsePacket.Single "{}") rfl,
   (request_success_payload_decoded _ _ _ _ _ _ "not valid json" rfl rfl).2
      "expected value" rfl⟩

/-- C8: when serialization of the packet fails with detail `d`, the
dispatch returns a local encoding error carrying `d` and no external call
is issued. -/
theorem request_encoding_failure_aborts (t : IcpTransport)
    (ser : RequestPacket → Except String String)
    (call : RpcService → String → Nat → Nat → Except MechanismError RequestResult)
    (parse : String → Except String ResponsePacket)
    (pkt : RequestPacket) (d : String)
    (hs : ser pkt = Except.error d) :
    t.request ser call parse pkt =
      (CallTrace.noCall, Except.error (TransportError.SerError d)) := by
  simp [IcpTransport.request, hs]

/-- Witness for C8: a failing serializer produces a serialization error
and no call. -/
theorem request_encoding_failure_aborts_witness :
    fixtureNoOverrides.request (fun _ => Except.error "recursion limit")
        (fun _ _ _ _ => Except.ok (RequestResult.Ok "resp")) fixtureParseFail
        (RequestPacket.Single { method := "eth_chainId", params := "" }) =
      (CallTrace.noCall, Except.error (TransportError.SerError "recursion limit")) :=
  request_encoding_failure_aborts _ _ _ _ _ "recursion limit" rfl

/-- C9: both the owned-adapter and the shared-reference readiness polls
return ready-with-success for every transport state. -/
theorem poll_ready_always_ready (t : IcpTransport) :
    t.poll_ready = Poll.Ready (Except.ok ()) ∧
    t.poll_ready_ref = Poll.Ready (Except.ok ()) :=
  ⟨rfl, rfl⟩
